import Mathlib

/-!
Verification development for the `dependency-suggest` command-line tool
(`src/main.rs`).  The program queries a package registry for available
versions of a library, selects the first version sharing the current
version's major component, downloads the corresponding jar, and gates the
result on an external vulnerability scanner's exit status.

Modelling conventions:
* Rust `String` / `&str` values are modelled as `List Char`.
* Fallible Rust computations (`Result`) are modelled with `Except`.
* Rust panics (`unwrap` on `Err`, out-of-bounds indexing) are modelled with
  a dedicated `Outcome.panicked` constructor so that an abort remains
  distinguishable from an error value returned to the caller.
* External effects (HTTP transport, filesystem, process launch) are
  modelled as oracle fields of explicit environment records; the pure
  control flow around them is translated directly from the source.
-/

set_option autoImplicit false

namespace DependencySuggest

/-- Result of a pipeline step: a returned value, a returned error
(`Result::Err` observed by the caller / process boundary), or a panic
(an abort that unwinds the process). -/
inductive Outcome (α : Type) where
  | ok (value : α) : Outcome α
  | err (msg : List Char) : Outcome α
  | panicked (msg : List Char) : Outcome α
  deriving DecidableEq

/-- Model of Rust `str::contains('.')`. -/
def contains_dot : List Char → Bool
  | [] => false
  | c :: rest => c == '.' || contains_dot rest

/-- Model of `version.split('.').next()`: the prefix of the string up to
(but excluding) the first `'.'`. -/
def take_until_dot : List Char → List Char
  | [] => []
  | c :: rest => if c == '.' then [] else c :: take_until_dot rest

/-- The error message built by `get_major_version` in `main.rs` lines 75-81:
`format!("Version '{version}' is not in semver format.")`. -/
def semver_err_msg (version : List Char) : List Char :=
  "Version '".toList ++ version ++ "' is not in semver format.".toList

/-- Model of `get_major_version` (`main.rs` lines 75-81): if the string
contains a `'.'`, return the substring before the first `'.'`; otherwise
fail with a message carrying the offending string. -/
def get_major_version (version : List Char) : Except (List Char) (List Char) :=
  if contains_dot version then .ok (take_until_dot version)
  else .error (semver_err_msg version)

/-- The message produced when Rust's `Result::unwrap` panics on an `Err`
holding a `String` payload (the payload is rendered with its `Debug`
formatting, which wraps a plain string in double quotes). -/
def unwrap_panic_msg (e : List Char) : List Char :=
  "called `Result::unwrap()` on an `Err` value: ".toList ++ '"' :: (e ++ ['"'])

/-- The panic message for `&matching_versions[0]` when the vector is empty
(`main.rs` line 165). -/
def index_oob_msg : List Char :=
  "index out of bounds: the len is 0 but the index is 0".toList

/-- Model of `extract_versions_with_same_major_version` (`main.rs` lines
83-91): filter the versions whose major component equals `major_version`,
preserving order.  The source calls `get_major_version(v).unwrap()` inside
the filter closure, so the first unparseable element aborts the run with a
panic instead of returning an error. -/
def extract_versions_with_same_major_version
    (major_version : List Char) (versions : List (List Char)) :
    Outcome (List (List Char)) :=
  match versions with
  | [] => .ok []
  | v :: rest =>
    match get_major_version v with
    | .error e => .panicked (unwrap_panic_msg e)
    | .ok m =>
      match extract_versions_with_same_major_version major_version rest with
      | .ok tail => .ok (if m == major_version then v :: tail else tail)
      | other => other

/-- Model of the candidate-selection phase of `main` (`main.rs` lines
159-165): compute the current version's major component (propagating its
error), filter the registry versions by that major component, and take the
first element of the filtered vector with an unchecked index. -/
def select_candidate (version : List Char) (versions : List (List Char)) :
    Outcome (List Char) :=
  match get_major_version version with
  | .error e => .err e
  | .ok major =>
    match extract_versions_with_same_major_version major versions with
    | .ok [] => .panicked index_oob_msg
    | .ok (x :: _) => .ok x
    | .err e => .err e
    | .panicked m => .panicked m

/-! ### Artifact fetching (`download_jar`, `main.rs` lines 93-114) -/

/-- The HTTP response observed by `reqwest::blocking::get` on the cache-miss
path of `download_jar`.  Note that `download_jar` never inspects the status
field: `reqwest::blocking::get` succeeds for any delivered response,
including a non-success status. -/
structure DlResp where
  status : Nat
  body : List Char
  deriving DecidableEq

/-- Oracle environment for one invocation of `download_jar`: the process's
current working directory, the outcome of the HTTP GET, and the outcomes of
`File::create` and `Response::copy_to` (each either success or an error
carried as its rendered cause). -/
structure FetchEnv where
  cwd : List Char
  getResult : Except (List Char) DlResp
  createResult : Except (List Char) Unit
  copyResult : Except (List Char) Unit

/-- Effect trace of one `download_jar` invocation: whether the network was
contacted and whether the local file was written. -/
structure DlTrace where
  network : Bool
  wrote : Bool
  deriving DecidableEq

/-- `format!("{artifact_id}-{version}.jar")` (`main.rs` line 95). -/
def jar_file_name (artifact_id version : List Char) : List Char :=
  artifact_id ++ '-' :: (version ++ ".jar".toList)

/-- `group_id.replace('.', "/")` (`main.rs` line 94). -/
def group_path (group_id : List Char) : List Char :=
  group_id.map (fun c => if c == '.' then '/' else c)

/-- The remote location of the jar (`main.rs` line 96). -/
def jar_url (group_id artifact_id version : List Char) : List Char :=
  "https://repo1.maven.org/maven2/".toList ++ group_path group_id
    ++ '/' :: (artifact_id ++ '/' :: (version ++ '/' :: jar_file_name artifact_id version))

/-- `std::env::current_dir()?.join(&file_name)` (`main.rs` line 98). -/
def full_jar_path (cwd artifact_id version : List Char) : List Char :=
  cwd ++ '/' :: jar_file_name artifact_id version

/-- Model of `download_jar` (`main.rs` lines 93-114) over an explicit
filesystem state `fs` (the set of file names present in the working
directory).  If the deterministic file name already exists the function
returns its full path at once; otherwise it performs the GET, creates the
file, and streams the body into it, propagating each step's error via `?`.
The HTTP status of the response is never examined.  Returns the result, the
filesystem after the call, and the effect trace. -/
def download_jar (env : FetchEnv) (fs : List (List Char))
    (_group_id artifact_id version : List Char) :
    Except (List Char) (List Char) × List (List Char) × DlTrace :=
  let file_name := jar_file_name artifact_id version
  let full_path := full_jar_path env.cwd artifact_id version
  if fs.contains file_name then (.ok full_path, fs, ⟨false, false⟩)
  else
    match env.getResult with
    | .error e => (.error e, fs, ⟨true, false⟩)
    | .ok _resp =>
      match env.createResult with
      | .error e => (.error e, fs, ⟨true, false⟩)
      | .ok _ =>
        match env.copyResult with
        | .error e => (.error e, file_name :: fs, ⟨true, true⟩)
        | .ok _ => (.ok full_path, file_name :: fs, ⟨true, true⟩)

/-! ### Vulnerability scanning (`check_vulnerabilities`, `main.rs` lines 116-143) -/

/-- Output of the external scanner process: its exit code and captured
standard-error text.  `ExitStatus::success()` is exit code zero. -/
structure ProcOut where
  exit_code : Nat
  err_out : List Char
  deriving DecidableEq

/-- Oracle environment for one invocation of `check_vulnerabilities`: the
optional `DEPENDENCY_CHECK_SCRIPT` environment variable and the outcome of
launching the scanner process (a launch failure carried as its rendered
cause, or the process's captured output). -/
structure ScanEnv where
  script_var : Option (List Char)
  launch : Except (List Char) ProcOut

/-- The default scanner path (`main.rs` line 118). -/
def default_script_path : List Char := "./dependency-check.sh".toList

/-- The scanner path actually used: the environment variable's value when
set, otherwise the default (`main.rs` lines 117-118). -/
def script_path_of (env : ScanEnv) : List Char :=
  env.script_var.getD default_script_path

/-- Remove trailing `'/'` characters from a path. -/
def strip_trailing_slashes (p : List Char) : List Char :=
  (p.reverse.dropWhile (fun c => c == '/')).reverse

/-- Model of Rust `Path::parent` for Unix-style paths: `none` exactly when
the path is empty or consists only of separators (a filesystem root);
otherwise the path with its final component removed (`some []` for a
single-component relative path, `some ['/']` when only the root remains). -/
def path_parent (p : List Char) : Option (List Char) :=
  match strip_trailing_slashes p with
  | [] => none
  | q =>
    match (q.reverse).dropWhile (fun c => c != '/') with
    | [] => some []
    | rest =>
      match strip_trailing_slashes rest.reverse with
      | [] => some ['/']
      | pre => some pre

/-- The message for a script path with no parent directory
(`main.rs` line 123). -/
def parent_err_msg (script_path : List Char) : List Char :=
  "Failed to get parent directory of Dependency-check script: ".toList ++ script_path

/-- The message for a failed process launch (`main.rs` line 132). -/
def exec_err_msg (e : List Char) : List Char :=
  "Failed to execute Dependency-check! Error: ".toList ++ e

/-- Rust's `Display` for a normal `ExitStatus` with the given exit code. -/
def exit_status_display (code : Nat) : List Char :=
  "exit status: ".toList ++ (Nat.repr code).toList

/-- The message for a scanner run that exited non-zero
(`main.rs` lines 137-141). -/
def scan_fail_msg (code : Nat) (err_text : List Char) : List Char :=
  "Dependency-check failed with status code ".toList ++ exit_status_display code
    ++ "! Error: ".toList ++ err_text

/-- Model of `check_vulnerabilities` (`main.rs` lines 116-143): resolve the
scanner path, fail if it has no parent directory, otherwise launch the
scanner (with the jar path among its fixed arguments) and interpret its
exit status: zero is success, non-zero is an error carrying the rendered
exit status and the captured stderr.  The second component of the result
records whether a process launch was attempted. -/
def check_vulnerabilities (env : ScanEnv) (_jar_file_path : List Char) :
    Except (List Char) Unit × Bool :=
  let sp := script_path_of env
  match path_parent sp with
  | none => (.error (parent_err_msg sp), false)
  | some _script_dir =>
    match env.launch with
    | .error e => (.error (exec_err_msg e), true)
    | .ok out =>
      if out.exit_code == 0 then (.ok (), true)
      else (.error (scan_fail_msg out.exit_code out.err_out), true)

/-! ### Registry query (`query_maven_central`, `main.rs` lines 40-73) -/

/-- JSON values, as produced by `serde_json` from a response body.  The
numeric payload is irrelevant to this program and kept as an integer. -/
inductive Json where
  | null : Json
  | bool (b : Bool) : Json
  | num (n : Int) : Json
  | str (s : List Char) : Json
  | arr (elements : List Json) : Json
  | obj (fields : List (List Char × Json)) : Json

/-- First binding of a key in a JSON object's field list. -/
def json_lookup (key : List Char) : List (List Char × Json) → Option Json
  | [] => none
  | (k, v) :: rest => if k == key then some v else json_lookup key rest

/-- Deserialization of one `Doc { v: String }` (`main.rs` lines 21-24):
an object whose field `v` is a string; unknown fields are ignored. -/
def parse_doc : Json → Option (List Char)
  | .obj fields =>
    match json_lookup "v".toList fields with
    | some (.str s) => some s
    | _ => none
  | _ => none

/-- Deserialization of `Vec<Doc>`: every element must parse. -/
def parse_docs : List Json → Option (List (List Char))
  | [] => some []
  | j :: rest =>
    match parse_doc j, parse_docs rest with
    | some v, some vs => some (v :: vs)
    | _, _ => none

/-- Deserialization of `SearchResult { response: Response { docs: Vec<Doc> } }`
(`main.rs` lines 11-24), already mapped through the `doc.v` projection of
`main.rs` lines 66-71: requires the shape `{response: {docs: [{v}]}}`. -/
def parse_search_result (j : Json) : Option (List (List Char)) :=
  match j with
  | .obj fields =>
    match json_lookup "response".toList fields with
    | some (.obj rfields) =>
      match json_lookup "docs".toList rfields with
      | some (.arr docs) => parse_docs docs
      | _ => none
    | _ => none
  | _ => none

/-- The registry client's error taxonomy, mirroring the distinct error
values that `query_maven_central` can box: a URL-construction failure, a
transport failure from `send`, a body-decoding failure from `text`, the
program's own `ApiError { status, response_body }` (`main.rs` lines 26-38)
for a non-success status, and a `serde_json` deserialization failure. -/
inductive RegistryError where
  | urlError (e : List Char) : RegistryError
  | transport (e : List Char) : RegistryError
  | textError (e : List Char) : RegistryError
  | api (status : Nat) (response_body : List Char) : RegistryError
  | jsonError : RegistryError

/-- The HTTP response observed by `query_maven_central`: its status, the
outcome of decoding its body to text, and (as an oracle for the external
JSON grammar) the JSON value of that text, `none` when the text is not
well-formed JSON.  The shape check on the JSON value is implemented, not
oracled. -/
structure HttpResp where
  status : Nat
  textResult : Except (List Char) (List Char)
  json : Option Json

/-- Oracle environment for one invocation of `query_maven_central`: the
outcome of `Url::parse_with_params` and the outcome of sending the GET. -/
structure RegistryEnv where
  urlResult : Except (List Char) Unit
  sendResult : Except (List Char) HttpResp

/-- `StatusCode::is_success`: the 2xx range. -/
def status_is_success (s : Nat) : Bool :=
  decide (200 ≤ s) && decide (s < 300)

/-- Model of `query_maven_central` (`main.rs` lines 40-73): build the URL,
send the request, decode the body, fail with `ApiError` on a non-success
status (carrying the status and the raw body), otherwise deserialize the
body into the expected shape and return the version strings in response
order. -/
def query_maven_central (env : RegistryEnv) :
    Except RegistryError (List (List Char)) :=
  match env.urlResult with
  | .error e => .error (.urlError e)
  | .ok _ =>
    match env.sendResult with
    | .error e => .error (.transport e)
    | .ok resp =>
      match resp.textResult with
      | .error e => .error (.textError e)
      | .ok body =>
        if status_is_success resp.status then
          match resp.json with
          | none => .error .jsonError
          | some j =>
            match parse_search_result j with
            | none => .error .jsonError
            | some versions => .ok versions
        else .error (.api resp.status body)

/-! ### Orchestration (`main`, `main.rs` lines 145-180) -/

/-- Which pipeline stages were attempted in a run. -/
structure PTrace where
  fetch_attempted : Bool
  scan_attempted : Bool
  deriving DecidableEq

/-- `format!("Failed to query maven central! Error: {err}")`
(`main.rs` line 157). -/
def query_err_msg (e : List Char) : List Char :=
  "Failed to query maven central! Error: ".toList ++ e

/-- The terminal message when the selected candidate equals the current
version (`main.rs` line 168). -/
def already_latest_msg : List Char :=
  "Current version is already latest version".toList

/-- `format!("Failed to download jar file! Error: {err}")`
(`main.rs` line 172). -/
def download_err_msg (e : List Char) : List Char :=
  "Failed to download jar file! Error: ".toList ++ e

/-- Model of `main` after argument parsing (`main.rs` lines 156-179).
`versionsR` is the outcome of `query_maven_central` with its error already
rendered to text (the rendering of the external library's error types is
abstracted).  The remaining control flow is translated directly: candidate
selection (`select_candidate`), the equality short-circuit, the download
with its error wrapper, and the scan.  The trace records which effectful
stages were attempted. -/
def run_pipeline (versionsR : Except (List Char) (List (List Char)))
    (group_id artifact_id version : List Char)
    (fenv : FetchEnv) (fs : List (List Char)) (senv : ScanEnv) :
    Outcome Unit × PTrace :=
  match versionsR with
  | .error e => (.err (query_err_msg e), ⟨false, false⟩)
  | .ok versions =>
    match select_candidate version versions with
    | .err e => (.err e, ⟨false, false⟩)
    | .panicked m => (.panicked m, ⟨false, false⟩)
    | .ok latest =>
      if latest == version then (.err already_latest_msg, ⟨false, false⟩)
      else
        match download_jar fenv fs group_id artifact_id latest with
        | (.error e, _, _) => (.err (download_err_msg e), ⟨true, false⟩)
        | (.ok jar, _, _) =>
          match (check_vulnerabilities senv jar).1 with
          | .error e => (.err e, ⟨true, true⟩)
          | .ok _ => (.ok (), ⟨true, true⟩)

/-! ### Helper lemmas -/

theorem contains_dot_append_dot (major rest : List Char) :
    contains_dot (major ++ '.' :: rest) = true := by
  induction major with
  | nil => simp [contains_dot]
  | cons c t ih => simp [contains_dot, ih]

theorem take_until_dot_append_dot (major rest : List Char)
    (h : contains_dot major = false) :
    take_until_dot (major ++ '.' :: rest) = major := by
  induction major with
  | nil => simp [take_until_dot]
  | cons c t ih =>
    simp only [contains_dot, Bool.or_eq_false_iff] at h
    simp [List.cons_append, take_until_dot, h.1, ih h.2]

theorem unwrap_msg_carries (w : List Char) :
    ∃ pre post, unwrap_panic_msg (semver_err_msg w) = pre ++ w ++ post :=
  ⟨"called `Result::unwrap()` on an `Err` value: ".toList ++ '"' :: "Version '".toList,
   "' is not in semver format.".toList ++ ['"'],
   by simp [unwrap_panic_msg, semver_err_msg]⟩

/-! ### Claim theorems -/

/-- Claim C1 (code-bug evidence): when no registry version shares the
current version's major component — here with the empty list and with a
list containing only a different major version — candidate selection does
NOT fail with a returned `SelectionError`: it aborts with the
index-out-of-bounds panic of `&matching_versions[0]` (`main.rs` line 165). -/
theorem select_candidate_empty_match_aborts :
    select_candidate "1.0".toList [] = .panicked index_oob_msg ∧
    select_candidate "1.0".toList ["2.0".toList] = .panicked index_oob_msg := by
  constructor <;> decide

/-- Claim C4: for every version string with no `'.'`, `get_major_version`
fails with the parse error carrying the offending string; for every string
of the form `major ++ "." ++ rest` (with `major` itself dot-free), it
succeeds and returns exactly `major`. -/
theorem get_major_version_spec :
    (∀ v : List Char, contains_dot v = false →
      get_major_version v = .error (semver_err_msg v) ∧
      ∃ pre post, semver_err_msg v = pre ++ v ++ post) ∧
    (∀ major rest : List Char, contains_dot major = false →
      get_major_version (major ++ '.' :: rest) = .ok major) := by
  constructor
  · intro v h
    refine ⟨by simp [get_major_version, h], "Version '".toList,
      "' is not in semver format.".toList, rfl⟩
  · intro major rest h
    simp [get_major_version, contains_dot_append_dot, take_until_dot_append_dot major rest h]

/-- Witness for Claim C4 at concrete inputs. -/
theorem get_major_version_spec_witness :
    (get_major_version "10".toList = .error (semver_err_msg "10".toList) ∧
      ∃ pre post, semver_err_msg "10".toList = pre ++ "10".toList ++ post) ∧
    get_major_version ("1".toList ++ '.' :: "2.3".toList) = .ok "1".toList :=
  ⟨get_major_version_spec.1 "10".toList (by decide),
   get_major_version_spec.2 "1".toList "2.3".toList (by decide)⟩

/-- Claim C2: if some element of `versions` has no `'.'`, then candidate
filtering surfaces the parse failure of the first such element `w`: the run
aborts with a panic whose message carries `w`, and in particular the
filtering never returns a successful list (the result is `panicked`, not
`ok`), and the malformed entry is never silently skipped. -/
theorem extract_surfaces_first_parse_failure
    (major : List Char) (versions : List (List Char)) (w : List Char)
    (h : versions.find? (fun v => !(contains_dot v)) = some w) :
    w ∈ versions ∧ contains_dot w = false ∧
    extract_versions_with_same_major_version major versions =
      .panicked (unwrap_panic_msg (semver_err_msg w)) ∧
    ∃ pre post, unwrap_panic_msg (semver_err_msg w) = pre ++ w ++ post := by
  induction versions with
  | nil => simp [List.find?] at h
  | cons v rest ih =>
    by_cases hv : contains_dot v = true
    · have hpred : (fun v => !(contains_dot v)) v = false := by simp [hv]
      rw [List.find?_cons_of_neg _ (by simp [hv])] at h
      obtain ⟨hmem, hw, hex, hcar⟩ := ih h
      refine ⟨List.mem_cons_of_mem _ hmem, hw, ?_, hcar⟩
      simp [extract_versions_with_same_major_version, get_major_version, hv, hex]
    · have hv' : contains_dot v = false := by
        cases hcd : contains_dot v
        · rfl
        · exact absurd hcd hv
      rw [List.find?_cons_of_pos _ (by simp [hv'])] at h
      have hwv : w = v := by injection h with h; exact h.symm
      subst hwv
      refine ⟨List.mem_cons_self _ _, hv', ?_, unwrap_msg_carries w⟩
      simp [extract_versions_with_same_major_version, get_major_version, hv']

/-- Witness for Claim C2 at a concrete input. -/
theorem extract_surfaces_first_parse_failure_witness :
    "20".toList ∈ ["1.2".toList, "20".toList] ∧
    contains_dot "20".toList = false ∧
    extract_versions_with_same_major_version "1".toList
        ["1.2".toList, "20".toList] =
      .panicked (unwrap_panic_msg (semver_err_msg "20".toList)) ∧
    ∃ pre post,
      unwrap_panic_msg (semver_err_msg "20".toList) =
        pre ++ "20".toList ++ post :=
  extract_surfaces_first_parse_failure "1".toList
    ["1.2".toList, "20".toList] "20".toList (by decide)

/-- Claim C5: with every involved version parseable, the filtered candidate
set computed by the code equals the order-preserving `List.filter` of the
registry versions by major-version string equality with the current
version's major, and whenever that filtered sequence is non-empty the
selected candidate is its first element. -/
theorem select_candidate_filter_first
    (version : List Char) (versions : List (List Char))
    (hcur : contains_dot version = true)
    (hall : ∀ v ∈ versions, contains_dot v = true) :
    extract_versions_with_same_major_version (take_until_dot version) versions =
      .ok (versions.filter fun v => take_until_dot v == take_until_dot version) ∧
    ∀ x xs,
      versions.filter (fun v => take_until_dot v == take_until_dot version) = x :: xs →
      select_candidate version versions = .ok x := by
  have hex : ∀ vs : List (List Char), (∀ v ∈ vs, contains_dot v = true) →
      extract_versions_with_same_major_version (take_until_dot version) vs =
        .ok (vs.filter fun v => take_until_dot v == take_until_dot version) := by
    intro vs
    induction vs with
    | nil => intro _; simp [extract_versions_with_same_major_version]
    | cons v rest ih =>
      intro hvs
      have hv : contains_dot v = true := hvs v (List.mem_cons_self _ _)
      have ihh := ih fun u hu => hvs u (List.mem_cons_of_mem _ hu)
      by_cases hp : (take_until_dot v == take_until_dot version) = true
      · simp [extract_versions_with_same_major_version, get_major_version, hv, ihh,
          List.filter_cons, hp]
      · simp only [Bool.not_eq_true] at hp
        simp [extract_versions_with_same_major_version, get_major_version, hv, ihh,
          List.filter_cons, hp]
  refine ⟨hex versions hall, ?_⟩
  intro x xs hf
  simp [select_candidate, get_major_version, hcur, hex versions hall, hf]

/-- Witness for Claim C5 at the spec's end-to-end scenario A inputs. -/
theorem select_candidate_filter_first_witness :
    extract_versions_with_same_major_version (take_until_dot "2.3.0".toList)
        ["2.5.0".toList, "2.4.0".toList, "1.9.0".toList] =
      .ok (["2.5.0".toList, "2.4.0".toList, "1.9.0".toList].filter
        fun v => take_until_dot v == take_until_dot "2.3.0".toList) ∧
    select_candidate "2.3.0".toList
        ["2.5.0".toList, "2.4.0".toList, "1.9.0".toList] = .ok "2.5.0".toList :=
  ⟨(select_candidate_filter_first "2.3.0".toList
      ["2.5.0".toList, "2.4.0".toList, "1.9.0".toList] (by decide) (by decide)).1,
   (select_candidate_filter_first "2.3.0".toList
      ["2.5.0".toList, "2.4.0".toList, "1.9.0".toList] (by decide) (by decide)).2
     "2.5.0".toList ["2.4.0".toList] (by decide)⟩

/-- A fetch environment in which every external step succeeds. -/
def sample_fetch_env : FetchEnv :=
  { cwd := "/work".toList, getResult := .ok ⟨200, []⟩,
    createResult := .ok (), copyResult := .ok () }

/-- A scan environment with the default script path and a clean scanner run. -/
def sample_scan_env : ScanEnv :=
  { script_var := none, launch := .ok ⟨0, []⟩ }

/-- Claim C6 counterexample: at the spec's scenario-B input
(current `"2.5.0"`, registry `["2.5.0","2.4.0"]`) the pipeline does stop
before fetch and scan, but the terminal message is the code's
`"Current version is already latest version"`, which is not the message
`"already at latest compatible version"` stated by the claim. -/
theorem already_latest_message_differs_from_spec :
    run_pipeline (.ok ["2.5.0".toList, "2.4.0".toList]) "com.example".toList
        "demo".toList "2.5.0".toList sample_fetch_env [] sample_scan_env =
      (.err already_latest_msg, ⟨false, false⟩) ∧
    already_latest_msg ≠ "already at latest compatible version".toList := by
  constructor <;> decide

/-- Claim C6 (amended): whenever the selected candidate equals the current
version exactly, the pipeline terminates with the error outcome
`"Current version is already latest version"` and neither the fetch nor the
scan is attempted. -/
theorem pipeline_already_latest_short_circuit
    (versions : List (List Char)) (group_id artifact_id version : List Char)
    (fenv : FetchEnv) (fs : List (List Char)) (senv : ScanEnv)
    (hsel : select_candidate version versions = .ok version) :
    run_pipeline (.ok versions) group_id artifact_id version fenv fs senv =
      (.err already_latest_msg, ⟨false, false⟩) := by
  simp [run_pipeline, hsel]

/-- Witness for Claim C6's amended theorem at the scenario-B input. -/
theorem pipeline_already_latest_short_circuit_witness :
    run_pipeline (.ok ["2.5.0".toList, "2.4.0".toList]) "org.example".toList
        "widget".toList "2.5.0".toList sample_fetch_env [] sample_scan_env =
      (.err already_latest_msg, ⟨false, false⟩) :=
  pipeline_already_latest_short_circuit ["2.5.0".toList, "2.4.0".toList]
    "org.example".toList "widget".toList "2.5.0".toList sample_fetch_env []
    sample_scan_env (by decide)

/-- A fetch environment whose GET is answered with HTTP 404 and an error
page as body, with the local file operations succeeding. -/
def status404_fetch_env : FetchEnv :=
  { cwd := "/work".toList, getResult := .ok ⟨404, "Not Found".toList⟩,
    createResult := .ok (), copyResult := .ok () }

/-- Claim C3 counterexample: on a cache miss answered with the non-success
status 404, `download_jar` still returns a successful local artifact path
(the error body is streamed into the jar file); the status is never
inspected, so a non-success status does not produce a `FetchError`. -/
theorem download_jar_ok_despite_status_404 :
    status_is_success 404 = false ∧
    (download_jar status404_fetch_env [] "com.example".toList "demo".toList
        "1.0.0".toList).1 =
      .ok (full_jar_path "/work".toList "demo".toList "1.0.0".toList) := by
  exact ⟨by decide, rfl⟩

/-- Claim C3 (amended): on a cache miss, a transport error, a file-creation
error, and a body-write error each make `download_jar` return the
underlying cause as its error; when transport and file operations succeed
the fetch succeeds with the deterministic path regardless of the response's
HTTP status. -/
theorem download_jar_propagates_errors
    (env : FetchEnv) (fs : List (List Char))
    (group_id artifact_id version e : List Char)
    (hmiss : fs.contains (jar_file_name artifact_id version) = false) :
    (env.getResult = .error e →
      (download_jar env fs group_id artifact_id version).1 = .error e) ∧
    (∀ resp, env.getResult = .ok resp → env.createResult = .error e →
      (download_jar env fs group_id artifact_id version).1 = .error e) ∧
    (∀ resp, env.getResult = .ok resp → env.createResult = .ok () →
      env.copyResult = .error e →
      (download_jar env fs group_id artifact_id version).1 = .error e) ∧
    (∀ resp, env.getResult = .ok resp → env.createResult = .ok () →
      env.copyResult = .ok () →
      (download_jar env fs group_id artifact_id version).1 =
        .ok (full_jar_path env.cwd artifact_id version)) := by
  have hmiss' : jar_file_name artifact_id version ∉ fs := by simpa using hmiss
  refine ⟨?_, ?_, ?_, ?_⟩ <;> intros <;> simp [download_jar, hmiss', *]

/-- A fetch environment whose GET fails at the transport layer. -/
def transport_fail_fetch_env : FetchEnv :=
  { cwd := "/work".toList, getResult := .error "connection refused".toList,
    createResult := .ok (), copyResult := .ok () }

/-- Witness for Claim C3's amended theorem at a concrete transport failure. -/
theorem download_jar_propagates_errors_witness :
    (download_jar transport_fail_fetch_env [] "com.example".toList
        "demo".toList "1.0.0".toList).1 = .error "connection refused".toList :=
  (download_jar_propagates_errors transport_fail_fetch_env []
    "com.example".toList "demo".toList "1.0.0".toList
    "connection refused".toList (by decide)).1 rfl

/-- Claim C9: if the deterministic jar file already exists, `download_jar`
returns its full path at once with no network access and no file write and
an unchanged filesystem; and after any successful fetch, a second fetch of
the same artifact and version (from the same working directory, under any
oracle environment) returns the same path with no network access and no
write. -/
theorem download_jar_idempotent
    (env env2 : FetchEnv) (fs fs2 : List (List Char))
    (group_id group_id2 artifact_id version p : List Char) (tr : DlTrace)
    (hcwd : env2.cwd = env.cwd) :
    (fs.contains (jar_file_name artifact_id version) = true →
      download_jar env fs group_id artifact_id version =
        (.ok (full_jar_path env.cwd artifact_id version), fs, ⟨false, false⟩)) ∧
    (download_jar env fs group_id artifact_id version = (.ok p, fs2, tr) →
      download_jar env2 fs2 group_id2 artifact_id version =
        (.ok p, fs2, ⟨false, false⟩)) := by
  constructor
  · intro h
    have h' : jar_file_name artifact_id version ∈ fs := by simpa using h
    simp [download_jar, h']
  · intro h
    by_cases hc : jar_file_name artifact_id version ∈ fs
    · simp [download_jar, hc] at h
      obtain ⟨hp, hfs, _⟩ := h
      subst hfs
      simp [download_jar, hc, ← hp, hcwd]
    · rcases hg : env.getResult with e' | resp
      · simp [download_jar, hc, hg] at h
      · rcases hcr : env.createResult with e' | u
        · simp [download_jar, hc, hg, hcr] at h
        · rcases hcp : env.copyResult with e' | u'
          · simp [download_jar, hc, hg, hcr, hcp] at h
          · simp [download_jar, hc, hg, hcr, hcp] at h
            obtain ⟨hp, hfs, _⟩ := h
            have hmem : jar_file_name artifact_id version ∈ fs2 := by
              rw [← hfs]
              exact List.mem_cons_self _ _
            simp [download_jar, hmem, ← hp, hcwd]

/-- Witness for Claim C9: a second fetch after the file is present performs
no transfer and returns the same path. -/
theorem download_jar_idempotent_witness :
    download_jar sample_fetch_env [jar_file_name "demo".toList "1.0.0".toList]
        "com.example".toList "demo".toList "1.0.0".toList =
      (.ok (full_jar_path "/work".toList "demo".toList "1.0.0".toList),
       [jar_file_name "demo".toList "1.0.0".toList], ⟨false, false⟩) :=
  (download_jar_idempotent sample_fetch_env sample_fetch_env []
    [jar_file_name "demo".toList "1.0.0".toList] "com.example".toList
    "com.example".toList "demo".toList "1.0.0".toList
    (full_jar_path "/work".toList "demo".toList "1.0.0".toList)
    ⟨true, true⟩ rfl).2 rfl

/-- Claim C7: whenever the scanner path resolves to a parent directory and
the process launch succeeds, the scan succeeds exactly when the process
exits with code zero — the captured stderr text plays no role in the
verdict — and on a non-zero exit the scan fails with the message carrying
the rendered exit status and the captured stderr. -/
theorem check_vulnerabilities_gates_on_exit_code
    (senv : ScanEnv) (jar d : List Char) (out : ProcOut)
    (hp : path_parent (script_path_of senv) = some d)
    (hl : senv.launch = .ok out) :
    ((check_vulnerabilities senv jar).1 = .ok () ↔ out.exit_code = 0) ∧
    (out.exit_code ≠ 0 →
      check_vulnerabilities senv jar =
        (.error (scan_fail_msg out.exit_code out.err_out), true) ∧
      ∃ pre mid, scan_fail_msg out.exit_code out.err_out =
        pre ++ exit_status_display out.exit_code ++ (mid ++ out.err_out)) := by
  constructor
  · by_cases hz : out.exit_code = 0
    · simp [check_vulnerabilities, hp, hl, hz]
    · simp [check_vulnerabilities, hp, hl, hz]
  · intro hz
    refine ⟨by simp [check_vulnerabilities, hp, hl, hz],
      "Dependency-check failed with status code ".toList, "! Error: ".toList,
      by simp [scan_fail_msg, List.append_assoc]⟩

/-- A scan environment using the default scanner path, whose scanner run
exits with status 1 and a CVE report on stderr. -/
def cve_scan_env : ScanEnv :=
  { script_var := none, launch := .ok ⟨1, "CVE-2023-xxxx found".toList⟩ }

/-- Witness for Claim C7: with exit status 1 and a CVE message on stderr,
the scan fails with a message carrying both. -/
theorem check_vulnerabilities_gates_on_exit_code_witness :
    check_vulnerabilities cve_scan_env "demo-1.0.0.jar".toList =
      (.error (scan_fail_msg 1 "CVE-2023-xxxx found".toList), true) :=
  ((check_vulnerabilities_gates_on_exit_code cve_scan_env
    "demo-1.0.0.jar".toList ['.'] ⟨1, "CVE-2023-xxxx found".toList⟩
    (by decide) rfl).2 (by decide)).1

/-- Claim C8: with the request sent and the body decoded, a non-success
HTTP status makes `query_maven_central` fail with the `ApiError` carrying
the status code and the raw body verbatim; a success status whose body is
not JSON of the `{response: {docs: [{v}]}}` shape fails with the (distinct)
deserialization error; the two error constructors are never equal, and in
each case no version list is returned. -/
theorem query_maven_central_error_paths
    (env : RegistryEnv) (resp : HttpResp) (body : List Char)
    (hurl : env.urlResult = .ok ())
    (hsend : env.sendResult = .ok resp)
    (htext : resp.textResult = .ok body) :
    (status_is_success resp.status = false →
      query_maven_central env = .error (.api resp.status body)) ∧
    (status_is_success resp.status = true → resp.json = none →
      query_maven_central env = .error .jsonError) ∧
    (∀ j, status_is_success resp.status = true → resp.json = some j →
      parse_search_result j = none →
      query_maven_central env = .error .jsonError) ∧
    (∀ s b, RegistryError.api s b ≠ RegistryError.jsonError) := by
  refine ⟨?_, ?_, ?_, ?_⟩
  · intro hs
    simp [query_maven_central, hurl, hsend, htext, hs]
  · intro hs hj
    simp [query_maven_central, hurl, hsend, htext, hs, hj]
  · intro j hs hj hparse
    simp [query_maven_central, hurl, hsend, htext, hs, hj, hparse]
  · intro s b h
    exact RegistryError.noConfusion h

/-- A registry environment answering with HTTP 404 and a plain-text body. -/
def status404_registry_env : RegistryEnv :=
  { urlResult := .ok (),
    sendResult := .ok
      { status := 404, textResult := .ok "Not Found".toList, json := none } }

/-- Witness for Claim C8 at a concrete 404 response. -/
theorem query_maven_central_error_paths_witness :
    query_maven_central status404_registry_env =
      .error (.api 404 "Not Found".toList) :=
  (query_maven_central_error_paths status404_registry_env
    { status := 404, textResult := .ok "Not Found".toList, json := none }
    "Not Found".toList rfl rfl rfl).1 (by decide)

/-- Claim C10: when the scanner script path (override or default) is the
empty string or consists only of path separators (a filesystem root), so
that it has no parent directory, `check_vulnerabilities` returns the error
naming that path and no scanner process launch is attempted (the trace
component is `false`). -/
theorem check_vulnerabilities_rejects_rootless_script_path
    (senv : ScanEnv) (jar : List Char)
    (h : ∀ c ∈ script_path_of senv, c = '/') :
    check_vulnerabilities senv jar =
      (.error (parent_err_msg (script_path_of senv)), false) ∧
    ∃ pre, parent_err_msg (script_path_of senv) =
      pre ++ script_path_of senv := by
  have hdrop : (script_path_of senv).reverse.dropWhile (fun c => c == '/') = [] := by
    rw [List.dropWhile_eq_nil_iff]
    intro x hx
    have hx' := h x (List.mem_reverse.mp hx)
    simp [hx']
  have hq : strip_trailing_slashes (script_path_of senv) = [] := by
    simp [strip_trailing_slashes, hdrop]
  have hpp : path_parent (script_path_of senv) = none := by
    simp only [path_parent]
    rw [hq]
  refine ⟨?_,
    "Failed to get parent directory of Dependency-check script: ".toList, rfl⟩
  simp [check_vulnerabilities, hpp]

/-- A scan environment whose script override is the filesystem root. -/
def root_scan_env : ScanEnv :=
  { script_var := some ['/'], launch := .error [] }

/-- Witness for Claim C10 with the script path overridden to `"/"`. -/
theorem check_vulnerabilities_rejects_rootless_script_path_witness :
    check_vulnerabilities root_scan_env "demo.jar".toList =
      (.error (parent_err_msg (script_path_of root_scan_env)), false) ∧
    ∃ pre, parent_err_msg (script_path_of root_scan_env) =
      pre ++ script_path_of root_scan_env :=
  check_vulnerabilities_rejects_rootless_script_path root_scan_env
    "demo.jar".toList (by decide)

end DependencySuggest
